import Mathlib

/-
Verification of the registration artifact
src/doc/implementors/core/convert/trait.From.js.

The file is an IIFE that builds one literal table and performs one
conditional handoff:

  (function() {var implementors = {};
  implementors['multipart'] = [ ... 33 HTML snippet strings ... ];
      if (window.register_implementors) {
          window.register_implementors(implementors);
      } else {
          window.pending_implementors = implementors;
      }
  })()

Embedding choices:
- the table is an association list `List (String × List String)` built
  exactly as the source builds it: an empty table with one key assigned;
- the process-wide (`window`) state is a structure with the two slots the
  source touches (`register_implementors`, `pending_implementors`) plus an
  abstract `rest` component standing for every other window property, so
  frame conditions are statable;
- the hook is an opaque value of an abstract type η (a JS function value is
  always truthy, so presence is an `Option`); invoking it is recorded in a
  call trace `List (η × ImplementorsTable)` returned next to the new state.
  The step is a pure function, so the single trace entry is the single
  synchronous call the source makes.
-/

/-- The array literal assigned to `implementors['multipart']` on line 2 of
trait.From.js: 33 pre-rendered HTML snippet strings. -/
def implementorsMultipart : List String := [
    "impl&lt;'a&gt; <a class='trait' href='https://doc.rust-lang.org/nightly/core/convert/trait.From.html' title='core::convert::From'>From</a>&lt;&amp;'a <a class='primitive' href='https://doc.rust-lang.org/nightly/std/primitive.str.html'>str</a>&gt; for <a class='enum' href='https://hyperium.github.io/hyper/hyper/client/pool/enum.Scheme.html' title='hyper::client::pool::Scheme'>Scheme</a>",
    "impl&lt;'a, R&gt; <a class='trait' href='https://doc.rust-lang.org/nightly/core/convert/trait.From.html' title='core::convert::From'>From</a>&lt;&amp;'a mut R&gt; for <a class='enum' href='https://hyperium.github.io/hyper/hyper/client/enum.Body.html' title='hyper::client::Body'>Body</a>&lt;'a&gt; <span class='where'>where R: <a class='trait' href='https://doc.rust-lang.org/nightly/std/io/trait.Read.html' title='std::io::Read'>Read</a></span>",
    "impl <a class='trait' href='https://doc.rust-lang.org/nightly/core/convert/trait.From.html' title='core::convert::From'>From</a>&lt;<a class='struct' href='https://doc.rust-lang.org/nightly/std/io/error/struct.Error.html' title='std::io::error::Error'>Error</a>&gt; for <a class='enum' href='https://hyperium.github.io/hyper/hyper/error/enum.Error.html' title='hyper::error::Error'>Error</a>",
    "impl <a class='trait' href='https://doc.rust-lang.org/nightly/core/convert/trait.From.html' title='core::convert::From'>From</a>&lt;ParseError&gt; for <a class='enum' href='https://hyperium.github.io/hyper/hyper/error/enum.Error.html' title='hyper::error::Error'>Error</a>",
    "impl <a class='trait' href='https://doc.rust-lang.org/nightly/core/convert/trait.From.html' title='core::convert::From'>From</a>&lt;<a class='enum' href='https://sfackler.github.io/rust-openssl/doc/v0.7.9/openssl/ssl/error/enum.SslError.html' title='openssl::ssl::error::SslError'>SslError</a>&gt; for <a class='enum' href='https://hyperium.github.io/hyper/hyper/error/enum.Error.html' title='hyper::error::Error'>Error</a>",
    "impl <a class='trait' href='https://doc.rust-lang.org/nightly/core/convert/trait.From.html' title='core::convert::From'>From</a>&lt;<a class='struct' href='https://doc.rust-lang.org/nightly/core/str/struct.Utf8Error.html' title='core::str::Utf8Error'>Utf8Error</a>&gt; for <a class='enum' href='https://hyperium.github.io/hyper/hyper/error/enum.Error.html' title='hyper::error::Error'>Error</a>",
    "impl <a class='trait' href='https://doc.rust-lang.org/nightly/core/convert/trait.From.html' title='core::convert::From'>From</a>&lt;<a class='struct' href='https://doc.rust-lang.org/nightly/collections/string/struct.FromUtf8Error.html' title='collections::string::FromUtf8Error'>FromUtf8Error</a>&gt; for <a class='enum' href='https://hyperium.github.io/hyper/hyper/error/enum.Error.html' title='hyper::error::Error'>Error</a>",
    "impl <a class='trait' href='https://doc.rust-lang.org/nightly/core/convert/trait.From.html' title='core::convert::From'>From</a>&lt;Error&gt; for <a class='enum' href='https://hyperium.github.io/hyper/hyper/error/enum.Error.html' title='hyper::error::Error'>Error</a>",
    "impl <a class='trait' href='https://doc.rust-lang.org/nightly/core/convert/trait.From.html' title='core::convert::From'>From</a>&lt;<a class='enum' href='https://mlalic.github.io/solicit/solicit/http/enum.HttpError.html' title='solicit::http::HttpError'>HttpError</a>&gt; for <a class='enum' href='https://hyperium.github.io/hyper/hyper/error/enum.Error.html' title='hyper::error::Error'>Error</a>",
    "impl&lt;T&gt; <a class='trait' href='https://doc.rust-lang.org/nightly/core/convert/trait.From.html' title='core::convert::From'>From</a>&lt;<a class='struct' href='https://doc.rust-lang.org/nightly/collections/vec/struct.Vec.html' title='collections::vec::Vec'>Vec</a>&lt;T&gt;&gt; for <a class='struct' href='https://doc.rust-lang.org/nightly/collections/binary_heap/struct.BinaryHeap.html' title='collections::binary_heap::BinaryHeap'>BinaryHeap</a>&lt;T&gt; <span class='where'>where T: <a class='trait' href='https://doc.rust-lang.org/nightly/core/cmp/trait.Ord.html' title='core::cmp::Ord'>Ord</a></span>",
    "impl&lt;T&gt; <a class='trait' href='https://doc.rust-lang.org/nightly/core/convert/trait.From.html' title='core::convert::From'>From</a>&lt;<a class='struct' href='https://doc.rust-lang.org/nightly/collections/binary_heap/struct.BinaryHeap.html' title='collections::binary_heap::BinaryHeap'>BinaryHeap</a>&lt;T&gt;&gt; for <a class='struct' href='https://doc.rust-lang.org/nightly/collections/vec/struct.Vec.html' title='collections::vec::Vec'>Vec</a>&lt;T&gt;",
    "impl&lt;'a, T&gt; <a class='trait' href='https://doc.rust-lang.org/nightly/core/convert/trait.From.html' title='core::convert::From'>From</a>&lt;&amp;'a mut <a class='enum' href='https://doc.rust-lang.org/nightly/core/option/enum.Option.html' title='core::option::Option'>Option</a>&lt;<a class='struct' href='https://doc.rust-lang.org/nightly/alloc/boxed/struct.Box.html' title='alloc::boxed::Box'>Box</a>&lt;<a class='struct' href='https://doc.rust-lang.org/nightly/collections/linked_list/struct.Node.html' title='collections::linked_list::Node'>Node</a>&lt;T&gt;&gt;&gt;&gt; for <a class='struct' href='https://doc.rust-lang.org/nightly/collections/linked_list/struct.Rawlink.html' title='collections::linked_list::Rawlink'>Rawlink</a>&lt;<a class='struct' href='https://doc.rust-lang.org/nightly/collections/linked_list/struct.Node.html' title='collections::linked_list::Node'>Node</a>&lt;T&gt;&gt;",
    "impl&lt;'a&gt; <a class='trait' href='https://doc.rust-lang.org/nightly/core/convert/trait.From.html' title='core::convert::From'>From</a>&lt;&amp;'a <a class='primitive' href='https://doc.rust-lang.org/nightly/std/primitive.str.html'>str</a>&gt; for <a class='struct' href='https://doc.rust-lang.org/nightly/collections/string/struct.String.html' title='collections::string::String'>String</a>",
    "impl&lt;'a&gt; <a class='trait' href='https://doc.rust-lang.org/nightly/core/convert/trait.From.html' title='core::convert::From'>From</a>&lt;&amp;'a <a class='primitive' href='https://doc.rust-lang.org/nightly/std/primitive.str.html'>str</a>&gt; for <a class='enum' href='https://doc.rust-lang.org/nightly/collections/borrow/enum.Cow.html' title='collections::borrow::Cow'>Cow</a>&lt;'a, <a class='primitive' href='https://doc.rust-lang.org/nightly/std/primitive.str.html'>str</a>&gt;",
    "impl&lt;'a&gt; <a class='trait' href='https://doc.rust-lang.org/nightly/core/convert/trait.From.html' title='core::convert::From'>From</a>&lt;<a class='struct' href='https://doc.rust-lang.org/nightly/collections/string/struct.String.html' title='collections::string::String'>String</a>&gt; for <a class='enum' href='https://doc.rust-lang.org/nightly/collections/borrow/enum.Cow.html' title='collections::borrow::Cow'>Cow</a>&lt;'a, <a class='primitive' href='https://doc.rust-lang.org/nightly/std/primitive.str.html'>str</a>&gt;",
    "impl&lt;'a, T&gt; <a class='trait' href='https://doc.rust-lang.org/nightly/core/convert/trait.From.html' title='core::convert::From'>From</a>&lt;<a class='primitive' href='https://doc.rust-lang.org/nightly/std/primitive.slice.html'>&amp;'a [T]</a>&gt; for <a class='struct' href='https://doc.rust-lang.org/nightly/collections/vec/struct.Vec.html' title='collections::vec::Vec'>Vec</a>&lt;T&gt; <span class='where'>where T: <a class='trait' href='https://doc.rust-lang.org/nightly/core/clone/trait.Clone.html' title='core::clone::Clone'>Clone</a></span>",
    "impl&lt;'a&gt; <a class='trait' href='https://doc.rust-lang.org/nightly/core/convert/trait.From.html' title='core::convert::From'>From</a>&lt;&amp;'a <a class='primitive' href='https://doc.rust-lang.org/nightly/std/primitive.str.html'>str</a>&gt; for <a class='struct' href='https://doc.rust-lang.org/nightly/collections/vec/struct.Vec.html' title='collections::vec::Vec'>Vec</a>&lt;<a class='primitive' href='https://doc.rust-lang.org/nightly/std/primitive.u8.html'>u8</a>&gt;",
    "impl&lt;T&gt; <a class='trait' href='https://doc.rust-lang.org/nightly/core/convert/trait.From.html' title='core::convert::From'>From</a>&lt;T&gt; for <a class='struct' href='https://doc.rust-lang.org/nightly/alloc/boxed/struct.Box.html' title='alloc::boxed::Box'>Box</a>&lt;T&gt;",
    "impl&lt;W&gt; <a class='trait' href='https://doc.rust-lang.org/nightly/core/convert/trait.From.html' title='core::convert::From'>From</a>&lt;<a class='struct' href='https://hyperium.github.io/hyper/hyper/http/h1/struct.EndError.html' title='hyper::http::h1::EndError'>EndError</a>&lt;W&gt;&gt; for <a class='struct' href='https://doc.rust-lang.org/nightly/std/io/error/struct.Error.html' title='std::io::error::Error'>Error</a> <span class='where'>where W: <a class='trait' href='https://doc.rust-lang.org/nightly/std/io/trait.Write.html' title='std::io::Write'>Write</a></span>",
    "impl <a class='trait' href='https://doc.rust-lang.org/nightly/core/convert/trait.From.html' title='core::convert::From'>From</a>&lt;<a class='struct' href='https://doc.rust-lang.org/nightly/std/io/error/struct.Error.html' title='std::io::error::Error'>Error</a>&gt; for <a class='struct' href='https://hyperium.github.io/hyper/hyper/http/h2/struct.Http2ConnectError.html' title='hyper::http::h2::Http2ConnectError'>Http2ConnectError</a>",
    "impl&lt;T&gt; <a class='trait' href='https://doc.rust-lang.org/nightly/core/convert/trait.From.html' title='core::convert::From'>From</a>&lt;T&gt; for <a class='struct' href='https://doc.rust-lang.org/nightly/alloc/boxed/struct.Box.html' title='alloc::boxed::Box'>Box</a>&lt;<a class='trait' href='https://hyperium.github.io/hyper/hyper/net/trait.NetworkStream.html' title='hyper::net::NetworkStream'>NetworkStream</a> + 'static + <a class='trait' href='https://doc.rust-lang.org/nightly/core/marker/trait.Send.html' title='core::marker::Send'>Send</a>&gt; <span class='where'>where T: <a class='trait' href='https://doc.rust-lang.org/nightly/core/marker/trait.Send.html' title='core::marker::Send'>Send</a> + <a class='trait' href='https://hyperium.github.io/hyper/hyper/net/trait.NetworkStream.html' title='hyper::net::NetworkStream'>NetworkStream</a></span>",
    "impl <a class='trait' href='https://doc.rust-lang.org/nightly/core/convert/trait.From.html' title='core::convert::From'>From</a>&lt;<a class='struct' href='https://doc.rust-lang.org/nightly/std/net/tcp/struct.TcpListener.html' title='std::net::tcp::TcpListener'>TcpListener</a>&gt; for <a class='struct' href='https://hyperium.github.io/hyper/hyper/net/struct.HttpListener.html' title='hyper::net::HttpListener'>HttpListener</a>",
    "impl <a class='trait' href='https://doc.rust-lang.org/nightly/core/convert/trait.From.html' title='core::convert::From'>From</a>&lt;<a class='primitive' href='https://doc.rust-lang.org/nightly/std/primitive.i8.html'>i8</a>&gt; for StatusCode",
    "impl <a class='trait' href='https://doc.rust-lang.org/nightly/core/convert/trait.From.html' title='core::convert::From'>From</a>&lt;<a class='primitive' href='https://doc.rust-lang.org/nightly/std/primitive.u8.html'>u8</a>&gt; for StatusCode",
    "impl <a class='trait' href='https://doc.rust-lang.org/nightly/core/convert/trait.From.html' title='core::convert::From'>From</a>&lt;<a class='primitive' href='https://doc.rust-lang.org/nightly/std/primitive.i16.html'>i16</a>&gt; for StatusCode",
    "impl <a class='trait' href='https://doc.rust-lang.org/nightly/core/convert/trait.From.html' title='core::convert::From'>From</a>&lt;<a class='primitive' href='https://doc.rust-lang.org/nightly/std/primitive.u16.html'>u16</a>&gt; for StatusCode",
    "impl <a class='trait' href='https://doc.rust-lang.org/nightly/core/convert/trait.From.html' title='core::convert::From'>From</a>&lt;<a class='primitive' href='https://doc.rust-lang.org/nightly/std/primitive.i32.html'>i32</a>&gt; for StatusCode",
    "impl <a class='trait' href='https://doc.rust-lang.org/nightly/core/convert/trait.From.html' title='core::convert::From'>From</a>&lt;<a class='primitive' href='https://doc.rust-lang.org/nightly/std/primitive.u32.html'>u32</a>&gt; for StatusCode",
    "impl <a class='trait' href='https://doc.rust-lang.org/nightly/core/convert/trait.From.html' title='core::convert::From'>From</a>&lt;<a class='primitive' href='https://doc.rust-lang.org/nightly/std/primitive.tuple.html'>(<a class='primitive' href='https://doc.rust-lang.org/nightly/std/primitive.u8.html'>u8</a>, <a class='primitive' href='https://doc.rust-lang.org/nightly/std/primitive.u8.html'>u8</a>)</a>&gt; for HTTPVersion",
    "impl <a class='trait' href='https://doc.rust-lang.org/nightly/core/convert/trait.From.html' title='core::convert::From'>From</a>&lt;<a class='struct' href='https://doc.rust-lang.org/nightly/std/io/error/struct.Error.html' title='std::io::error::Error'>Error</a>&gt; for RequestCreationError",
    "impl <a class='trait' href='https://doc.rust-lang.org/nightly/core/convert/trait.From.html' title='core::convert::From'>From</a>&lt;<a class='struct' href='https://doc.rust-lang.org/nightly/std/net/tcp/struct.TcpStream.html' title='std::net::tcp::TcpStream'>TcpStream</a>&gt; for Stream",
    "impl <a class='trait' href='https://doc.rust-lang.org/nightly/core/convert/trait.From.html' title='core::convert::From'>From</a>&lt;<a class='struct' href='https://doc.rust-lang.org/nightly/std/io/error/struct.Error.html' title='std::io::error::Error'>Error</a>&gt; for Message",
    "impl <a class='trait' href='https://doc.rust-lang.org/nightly/core/convert/trait.From.html' title='core::convert::From'>From</a>&lt;<a class='struct' href='multipart/server/tiny_http/struct.TinyHttpRequest.html' title='multipart::server::tiny_http::TinyHttpRequest'>Request</a>&gt; for Message"
]

/-- The shape of the table: a mapping from a library name to an ordered
sequence of opaque strings, realised as an association list. -/
abbrev ImplementorsTable : Type := List (String × List String)

/-- The table built on lines 1-2 of trait.From.js: `var implementors = {};`
followed by `implementors['multipart'] = [...]` yields a table whose only
binding is the key "multipart" mapped to `implementorsMultipart`. -/
def implementors : ImplementorsTable := [("multipart", implementorsMultipart)]

/-- The process-wide (`window`) state as the source sees it: the optional
registration hook (an opaque value of type η), the optional pending slot, and
an abstract `rest` component standing for every window property the source
never touches. -/
structure Window (η ρ : Type) where
  register_implementors : Option η
  pending_implementors : Option ImplementorsTable
  rest : ρ

/-- The conditional handoff on lines 4-8 of trait.From.js, generalised over
the table `t` being submitted: if the hook is present, invoke it with `t` as
its sole argument (recorded as the one entry of the returned call trace) and
leave the state untouched; otherwise write `t` over the pending slot and make
no call. -/
def submit (t : ImplementorsTable) (w : Window η ρ) :
    Window η ρ × List (η × ImplementorsTable) :=
  match w.register_implementors with
  | some h => (w, [(h, t)])
  | none => ({ w with pending_implementors := some t }, [])

/-- The registration step the file executes on load: `submit` applied to the
literal table `implementors`. -/
def registrationStep (w : Window η ρ) :
    Window η ρ × List (η × ImplementorsTable) :=
  submit implementors w

/-- C1: with the hook installed, the registration step makes exactly one
call, whose sole argument is the literal table `implementors`. -/
theorem registrationStep_hook_set {η ρ : Type} (w : Window η ρ) (h : η)
    (hs : w.register_implementors = some h) :
    (registrationStep w).2 = [(h, implementors)] := by
  simp [registrationStep, submit, hs]

/-- C1 witness: the hook-present case evaluated at a concrete window. -/
theorem registrationStep_hook_set_witness :
    (registrationStep (Window.mk (some ()) none () : Window Unit Unit)).2 =
      [((), implementors)] :=
  registrationStep_hook_set (Window.mk (some ()) none ()) () rfl

/-- C2: with the hook absent, the registration step writes the literal table
into the pending slot and makes no call. -/
theorem registrationStep_hook_unset {η ρ : Type} (w : Window η ρ)
    (hs : w.register_implementors = none) :
    (registrationStep w).1.pending_implementors = some implementors ∧
      (registrationStep w).2 = [] := by
  simp [registrationStep, submit, hs]

/-- C2 witness: the hook-absent case evaluated at a concrete window. -/
theorem registrationStep_hook_unset_witness :
    (registrationStep (Window.mk none none () : Window Unit Unit)).1.pending_implementors =
        some implementors ∧
      (registrationStep (Window.mk none none () : Window Unit Unit)).2 = [] :=
  registrationStep_hook_unset (Window.mk none none ()) rfl

/-- C3: two consecutive submissions with the hook absent leave the pending
slot holding exactly the second table, whatever the slot held before (last
write wins, no merge); in particular two runs of this file's registration
step leave the slot holding the literal table. -/
theorem registrationStep_last_write_wins {η ρ : Type} (w : Window η ρ)
    (t₁ t₂ : ImplementorsTable) (hs : w.register_implementors = none) :
    (submit t₂ (submit t₁ w).1).1.pending_implementors = some t₂ ∧
      (registrationStep (registrationStep w).1).1.pending_implementors =
        some implementors := by
  simp [registrationStep, submit, hs]

/-- C3 witness: the overwrite evaluated at a concrete window whose pending
slot already holds a different table. -/
theorem registrationStep_last_write_wins_witness :
    (submit [] (submit [("other", [])]
          (Window.mk none (some [("stale", [])]) () : Window Unit Unit)).1).1.pending_implementors =
        some [] ∧
      (registrationStep (registrationStep
          (Window.mk none (some [("stale", [])]) () : Window Unit Unit)).1).1.pending_implementors =
        some implementors :=
  registrationStep_last_write_wins
    (Window.mk none (some [("stale", [])]) ()) [("other", [])] [] rfl

set_option maxRecDepth 100000 in
/-- C4: the key set of the literal table is exactly the singleton "multipart",
and the value bound to that key is a non-empty sequence of non-empty
strings. -/
theorem implementors_table_shape :
    implementors.map Prod.fst = ["multipart"] ∧
      implementors.lookup "multipart" = some implementorsMultipart ∧
      implementorsMultipart ≠ [] ∧
      implementorsMultipart.all (fun s => s.data != []) = true := by
  refine ⟨rfl, ?_, ?_, ?_⟩
  · simp [implementors]
  · decide
  · decide

/-- C5: the hook-path is idempotent: with the hook installed, the step leaves
the window state exactly as it was, and running the step again from the
resulting state produces an identical call trace. -/
theorem registrationStep_hook_idempotent {η ρ : Type} (w : Window η ρ) (h : η)
    (hs : w.register_implementors = some h) :
    (registrationStep w).1 = w ∧
      registrationStep (registrationStep w).1 = registrationStep w := by
  simp [registrationStep, submit, hs]

/-- C5 witness: the idempotent hook-path evaluated at a concrete window. -/
theorem registrationStep_hook_idempotent_witness :
    (registrationStep (Window.mk (some ()) none () : Window Unit Unit)).1 =
        (Window.mk (some ()) none () : Window Unit Unit) ∧
      registrationStep (registrationStep
          (Window.mk (some ()) none () : Window Unit Unit)).1 =
        registrationStep (Window.mk (some ()) none () : Window Unit Unit) :=
  registrationStep_hook_idempotent (Window.mk (some ()) none ()) () rfl

/-- C6: the registration step is total and has no failure branch: from every
initial window state it completes in exactly one of its two documented
outcomes (one hook call with the state untouched, or a pending-slot write
with no call). -/
theorem registrationStep_total {η ρ : Type} (w : Window η ρ) :
    (∃ h, w.register_implementors = some h ∧
        registrationStep w = (w, [(h, implementors)])) ∨
      (w.register_implementors = none ∧
        registrationStep w =
          ({ w with pending_implementors := some implementors }, [])) := by
  cases hw : w.register_implementors with
  | some h => exact Or.inl ⟨h, rfl, by simp [registrationStep, submit, hw]⟩
  | none => exact Or.inr ⟨rfl, by simp [registrationStep, submit, hw]⟩

/-- C7: with the hook absent, the step's side effect is confined to the
pending slot: the hook slot and every other window component are unchanged. -/
theorem registrationStep_frame_unset {η ρ : Type} (w : Window η ρ)
    (hs : w.register_implementors = none) :
    (registrationStep w).1.register_implementors = w.register_implementors ∧
      (registrationStep w).1.rest = w.rest := by
  simp [registrationStep, submit, hs]

/-- C7 witness: the frame condition evaluated at a concrete window. -/
theorem registrationStep_frame_unset_witness :
    (registrationStep (Window.mk none none 7 : Window Unit Nat)).1.register_implementors =
        (Window.mk none none 7 : Window Unit Nat).register_implementors ∧
      (registrationStep (Window.mk none none 7 : Window Unit Nat)).1.rest =
        (Window.mk none none 7 : Window Unit Nat).rest :=
  registrationStep_frame_unset (Window.mk none none 7) rfl

/-- C8: the step never writes the hook slot: in both branches the hook after
the step equals the hook before it. -/
theorem registrationStep_never_writes_hook {η ρ : Type} (w : Window η ρ) :
    (registrationStep w).1.register_implementors = w.register_implementors := by
  cases hw : w.register_implementors <;> simp [registrationStep, submit, hw]

/-- C9: with the hook installed, the step leaves the pending slot exactly as
it was: a table parked by an earlier load is neither cleared nor
overwritten. -/
theorem registrationStep_pending_preserved {η ρ : Type} (w : Window η ρ)
    (h : η) (hs : w.register_implementors = some h) :
    (registrationStep w).1.pending_implementors = w.pending_implementors := by
  simp [registrationStep, submit, hs]

/-- C9 witness: the pending slot preserved at a concrete window that has both
a hook and a parked table. -/
theorem registrationStep_pending_preserved_witness :
    (registrationStep (Window.mk (some ()) (some [("stale", [])]) ()
          : Window Unit Unit)).1.pending_implementors =
      (Window.mk (some ()) (some [("stale", [])]) ()
          : Window Unit Unit).pending_implementors :=
  registrationStep_pending_preserved
    (Window.mk (some ()) (some [("stale", [])]) ()) () rfl

set_option maxRecDepth 100000 in
/-- C10: the sequence bound to "multipart" holds exactly 33 strings, each of
which starts with the four characters of "impl". -/
theorem implementorsMultipart_count_and_shape :
    implementorsMultipart.length = 33 ∧
      implementorsMultipart.all
        (fun s => List.isPrefixOf "impl".data s.data) = true := by
  constructor
  · rfl
  · decide
